import Mathlib

/-!
Shallow embedding of `email_sender.py` (MercuryRising), a progressive
email-campaign scheduler, together with proofs about the claims of its
specification.

Modelling conventions:
* Calendar dates (`%Y-%m-%d` strings in the script) are modelled as integers
  counting days, so the Python `(d2 - d1).days` becomes `d2 - d1`.  The script
  compares `datetime.now()` (with a time-of-day component) against a midnight
  start date in `check_and_cleanup_crontab`; since `0 ≤ time-of-day < 24h`,
  `timedelta.days` still equals the calendar-day difference, so the same
  integer subtraction models it.
* Python dicts keyed by date strings become association lists
  `List (Int × Int)` with unique keys maintained by `dictSet`.
* `random.sample`, `random.choice`, `random.randint` draw from the process
  RNG; they are modelled by threading explicit streams of numbers (a pick is
  reduced modulo the current pool size, which is exactly the range the
  library call draws from).
* The external world (the history file, the crontab, the `swaks` binary and
  its exit status) is modelled by explicit inputs and by effect fields in the
  result of `mainModel`.
-/

namespace MercuryRising

/-- In-memory campaign history, the parsed shape of `history.json`:
`{"start_date": ISO-date-or-null, "daily_sends": {date: count}}`. -/
structure History where
  start_date : Option Int
  daily_sends : List (Int × Int)
  deriving Repr, DecidableEq

/-- Python `d.get(k, 0)` on the `daily_sends` dict. -/
def dictGet (m : List (Int × Int)) (k : Int) : Int :=
  match m with
  | [] => 0
  | (k', v) :: rest => if k = k' then v else dictGet rest k

/-- Python `d[k] = v` on the `daily_sends` dict (unique keys). -/
def dictSet (m : List (Int × Int)) (k : Int) (v : Int) : List (Int × Int) :=
  match m with
  | [] => [(k, v)]
  | (k', v') :: rest => if k = k' then (k, v) :: rest else (k', v') :: dictSet rest k v

/-- `load_history`'s zero-value result:
`{"start_date": None, "daily_sends": {}}`. -/
def freshHistory : History := { start_date := none, daily_sends := [] }

/-- `get_current_day_info(history)` from the script.  Returns
`(day_number, emails_to_send, updated history)`; the script mutates
`history` in place when `start_date` is unset, which we model by returning
the updated record.  `today` (obtained from `datetime.now()` in the script)
is passed explicitly. -/
def get_current_day_info (history : History) (today : Int) : Int × Int × History :=
  let dayAndHist : Int × History :=
    match history.start_date with
    | none => (1, { history with start_date := some today })
    | some start => ((today - start) + 1, history)
  let day_number := dayAndHist.1
  let history' := dayAndHist.2
  let emails_sent_today := dictGet history'.daily_sends today
  let emails_to_send := max 0 (day_number - emails_sent_today)
  (day_number, emails_to_send, history')

/-- `update_history(history, date, count)`: bumps `daily_sends[date]` by
`count`.  In the script this also calls `save_history`; `mainModel` records
that effect. -/
def update_history (history : History) (date : Int) (count : Int) : History :=
  { history with
    daily_sends := dictSet history.daily_sends date (dictGet history.daily_sends date + count) }

/-- `check_and_cleanup_crontab(history)`: returns whether the crontab entry
is removed (`remove_crontab()` is invoked), which happens exactly when
`start_date` is set and `(now - start_date).days + 1 > 5`. -/
def check_and_cleanup_crontab (history : History) (today : Int) : Bool :=
  match history.start_date with
  | none => false
  | some start => decide ((today - start) + 1 > 5)

/-- Model of the stdlib `random.sample(pool, k)` call on line 334: `k` draws
without replacement.  The RNG is modelled by the stream `rs`; each draw picks
an index below the current pool size and removes that element from the pool. -/
def random_sample {α : Type} : List Nat → List α → Nat → List α
  | _, _, 0 => []
  | rs, pool, Nat.succ k =>
    if hp : pool.length = 0 then []
    else
      pool.get ⟨(rs.headD 0) % pool.length, Nat.mod_lt _ (Nat.pos_of_ne_zero hp)⟩ ::
        random_sample rs.tail (pool.eraseIdx ((rs.headD 0) % pool.length)) k

/-- A credential object from `send.json`; all fields are read with
`dict.get`, so any of them may be missing. -/
structure Creds where
  email : Option String
  password : Option String
  display_name : Option String
  deriving Repr, DecidableEq

/-- A message object from `messages.json`; `subject`/`body` are read with
`dict.get` with defaults. -/
structure Message where
  subject : Option String
  body : Option String
  deriving Repr, DecidableEq

/-- An entry of `receive.json`: a plain address string, a dict containing an
`email` key, or anything else (rejected by the loop). -/
inductive Recipient where
  | addr (s : String)
  | objWithEmail (s : String)
  | invalid
  deriving Repr, DecidableEq

/-- Default subject substituted by `selected_message.get('subject', ...)`. -/
def defaultSubject : String := "Hello Great Meetings"

/-- Default body substituted by `selected_message.get('body', ...)`. -/
def defaultBody : String :=
  "Hey there, just wanted to say thanks for the great meeting and business conversation the other day!"

/-- Outcome of one iteration of the per-recipient loop (lines 337-369):
skipped for an invalid recipient format, skipped for missing/empty
credentials, or an actual `send_email` attempt with its success flag and the
header fields passed to it. -/
inductive ItemOutcome where
  | invalidRecipient
  | invalidCreds
  | attempted (ok : Bool) (sender_email recipient_email subject body : String)
  deriving Repr, DecidableEq

/-- One iteration of the loop body: extract the recipient address (or
`continue`), read sender/message fields with their `dict.get` defaults,
skip on empty email/password (or `continue`), otherwise invoke the send
collaborator, whose outcome is `sendOk`. -/
def processRecipient (creds : Creds) (msg : Message) (recipient : Recipient)
    (sendOk : Bool) : ItemOutcome :=
  let recipientEmail : Option String :=
    match recipient with
    | .addr s => some s
    | .objWithEmail s => some s
    | .invalid => none
  match recipientEmail with
  | none => .invalidRecipient
  | some recipient_email =>
    let sender_email := creds.email.getD ""
    let sender_password := creds.password.getD ""
    let subject := msg.subject.getD defaultSubject
    let body := msg.body.getD defaultBody
    if sender_email = "" ∨ sender_password = "" then .invalidCreds
    else .attempted sendOk sender_email recipient_email subject body

/-- Whether an item contributed to `successful_sends`. -/
def isSuccess : ItemOutcome → Bool
  | .attempted true _ _ _ _ => true
  | _ => false

/-- `successful_sends` after the loop: the number of items whose send call
returned success. -/
def countSuccess (outs : List ItemOutcome) : Nat := outs.countP isSuccess

/-- The per-recipient loop over the selected recipients.  `credPick i` /
`msgPick i` model the `random.choice` draws of iteration `i` (reduced modulo
the list length, the range `random.choice` draws from) and `sendOk i` the
iteration's send outcome. -/
def dispatchLoop (send_data : List Creds) (messages_data : List Message)
    (credPick msgPick : Nat → Nat) (sendOk : Nat → Bool) :
    List Recipient → Nat → List ItemOutcome
  | [], _ => []
  | r :: rest, i =>
    let creds := send_data.getD (credPick i % send_data.length) ⟨none, none, none⟩
    let msg := messages_data.getD (msgPick i % messages_data.length) ⟨none, none⟩
    processRecipient creds msg r (sendOk i) ::
      dispatchLoop send_data messages_data credPick msgPick sendOk rest (i + 1)

/-- Lines 327-334: clamp `emails_to_send` to the number of available
recipients (warning when clamping) and sample that many distinct recipients.
Returns `(emails_to_send after clamping, warned, selected_recipients)`. -/
def selectRecipients (sample_rands : List Nat) (receive_data : List Recipient)
    (emails_to_send : Int) : Int × Bool × List Recipient :=
  let available : Int := receive_data.length
  let cw : Int × Bool :=
    if emails_to_send > available then (available, true) else (emails_to_send, false)
  (cw.1, cw.2, random_sample sample_rands receive_data cw.1.toNat)

/-- The command-line flags produced by `parse_arguments`. -/
structure Args where
  setupCron : Bool
  removeCron : Bool
  forceSend : Option Int
  status : Bool
  deriving Repr, DecidableEq

/-- Python truthiness of `args.force_send` as tested by
`if args.force_send:` — `None` and `0` are both falsy. -/
def forceSendTruthy : Option Int → Bool
  | none => false
  | some n => n != 0

/-- The ambient inputs of one `main()` invocation: the loaded history, the
current date, the three parsed datasets, whether `./swaks` exists, and the
streams feeding the `random.sample` / `random.choice` draws and the
per-iteration send outcomes. -/
structure Env where
  history : History
  today : Int
  send_data : List Creds
  messages_data : List Message
  receive_data : List Recipient
  swaks_exists : Bool
  sample_rands : List Nat
  credPick : Nat → Nat
  msgPick : Nat → Nat
  sendOk : Nat → Bool

/-- Observable result and effects of one `main()` invocation.  `saved` is
the content written by `save_history` (`none` when `save_history` is never
called during the run); `ranCleanupCheck` records whether
`check_and_cleanup_crontab` was invoked and `cleanupRemoved` whether it
removed the crontab entry; `day_number` is `none` on the forced path (the
script prints the label FORCED instead of a number there). -/
structure MainOutcome where
  exitCode : Int
  ranCleanupCheck : Bool
  cleanupRemoved : Bool
  forcedPath : Bool
  day_number : Option Int
  emails_planned : Int
  warnedClamp : Bool
  selected : List Recipient
  outcomes : List ItemOutcome
  successful_sends : Nat
  saved : Option History
  finalHistory : History
  deriving Repr

/-- `main()` (lines 234-390), modelled from the `--setup-cron` /
`--remove-cron` / `--status` early returns onward.  Dataset loading is
modelled at the validation step (an empty dataset or a missing `./swaks` is
the fatal `sys.exit(1)`); crontab manipulation is modelled by its decision
bits.  Note that `check_and_cleanup_crontab` runs on every
dispatch invocation, before the forced/scheduled branch. -/
def mainModel (args : Args) (env : Env) : MainOutcome :=
  if args.setupCron ∨ args.removeCron ∨ args.status then
    { exitCode := 0, ranCleanupCheck := false, cleanupRemoved := false, forcedPath := false,
      day_number := none, emails_planned := 0, warnedClamp := false, selected := [],
      outcomes := [], successful_sends := 0, saved := none, finalHistory := env.history }
  else
    let removed := check_and_cleanup_crontab env.history env.today
    if env.send_data.length = 0 ∨ env.messages_data.length = 0 ∨
        env.receive_data.length = 0 ∨ env.swaks_exists = false then
      { exitCode := 1, ranCleanupCheck := true, cleanupRemoved := removed, forcedPath := false,
        day_number := none, emails_planned := 0, warnedClamp := false, selected := [],
        outcomes := [], successful_sends := 0, saved := none, finalHistory := env.history }
    else
      let forced := forceSendTruthy args.forceSend
      let quotaInfo : Option Int × Int × History :=
        if forced then (none, args.forceSend.getD 0, env.history)
        else
          let r := get_current_day_info env.history env.today
          (some r.1, r.2.1, r.2.2)
      let day_number := quotaInfo.1
      let emails_to_send := quotaInfo.2.1
      let history1 := quotaInfo.2.2
      if emails_to_send ≤ 0 then
        { exitCode := 0, ranCleanupCheck := true, cleanupRemoved := removed,
          forcedPath := forced, day_number := day_number, emails_planned := emails_to_send,
          warnedClamp := false, selected := [], outcomes := [], successful_sends := 0,
          saved := none, finalHistory := history1 }
      else
        let sel := selectRecipients env.sample_rands env.receive_data emails_to_send
        let outs := dispatchLoop env.send_data env.messages_data env.credPick env.msgPick
          env.sendOk sel.2.2 1
        let successful := countSuccess outs
        let savedAndHist : Option History × History :=
          if forced = false ∧ 0 < successful then
            let h := update_history history1 env.today (successful : Int)
            (some h, h)
          else (none, history1)
        { exitCode := 0, ranCleanupCheck := true, cleanupRemoved := removed,
          forcedPath := forced, day_number := day_number, emails_planned := sel.1,
          warnedClamp := sel.2.1, selected := sel.2.2, outcomes := outs,
          successful_sends := successful, saved := savedAndHist.1,
          finalHistory := savedAndHist.2 }

/-- An invocation environment whose campaign started 10 days ago, with one
valid credential, message and recipient, and a send collaborator that
succeeds. -/
def forcedRunEnv : Env :=
  { history := ⟨some 90, []⟩, today := 100,
    send_data := [⟨some "s@example.com", some "pw", none⟩],
    messages_data := [⟨none, none⟩],
    receive_data := [.addr "r@example.com"],
    swaks_exists := true, sample_rands := [0],
    credPick := fun _ => 0, msgPick := fun _ => 0, sendOk := fun _ => true }

/-- An invocation environment with a fresh (never-started) campaign state
and a send collaborator that fails every attempt. -/
def freshFailEnv : Env :=
  { history := freshHistory, today := 100,
    send_data := [⟨some "s@example.com", some "pw", none⟩],
    messages_data := [⟨none, none⟩],
    receive_data := [.addr "r@example.com"],
    swaks_exists := true, sample_rands := [0],
    credPick := fun _ => 0, msgPick := fun _ => 0, sendOk := fun _ => false }

/-- A JSON document, as produced by `json.load`. -/
inductive JValue where
  | null
  | str (s : String)
  | num (n : Int)
  | arr (xs : List JValue)
  | obj (fields : List (String × JValue))

/-- Key lookup among a JSON object's fields. -/
def jLookup : List (String × JValue) → String → Option JValue
  | [], _ => none
  | (k, v) :: rest, key => if key = k then some v else jLookup rest key

/-- Python subscription `value[key]`: defined on dicts holding the key;
on any other JSON value (or a missing key) it raises, modelled as `none`. -/
def jGetField (j : JValue) (key : String) : Option JValue :=
  match j with
  | .obj fields => jLookup fields key
  | _ => none

/-- The zero-value record `load_history` falls back to:
`{"start_date": None, "daily_sends": {}}`. -/
def defaultHistoryJson : JValue :=
  .obj [("start_date", .null), ("daily_sends", .obj [])]

/-- The state of the durable `history.json` file as `load_history` finds
it: missing, unreadable (`open`/read raises), holding text that is not
valid JSON (`json.load` raises `JSONDecodeError`), or holding a JSON
document `j`. -/
inductive FileState where
  | absent
  | unreadable
  | invalidJson
  | content (j : JValue)

/-- `load_history()`: the `except` clause catches every error raised while
opening or parsing and falls through to the zero-value record; when
`json.load` succeeds, whatever document it produced is returned unchanged
(no shape check is performed). -/
def load_history : FileState → JValue
  | .absent => defaultHistoryJson
  | .unreadable => defaultHistoryJson
  | .invalidJson => defaultHistoryJson
  | .content j => j

/-- Modelled from the spec: the durable record's advertised shape is
`{start_date: ISO date or null, daily_sends: {date_string: integer, ...}}`
(spec §6); a stored document of any other shape is a malformed/corrupt
record. -/
def wellFormedRecord (j : JValue) : Bool :=
  match j with
  | .obj fields =>
    (match jLookup fields "start_date" with
      | some .null => true
      | some (.str _) => true
      | _ => false) &&
    (match jLookup fields "daily_sends" with
      | some (.obj ds) => ds.all fun kv =>
          match kv.2 with
          | .num _ => true
          | _ => false
      | _ => false)
  | _ => false

/-- `save_history(history)` opens `history.json` with mode `w` — which
truncates the file in place — and then `json.dump` writes the serialized
record (abstracted here as the string `new`) into it.  A concurrent reader
can therefore observe the truncated empty file before the dump completes;
this list holds the file contents observable during the save. -/
def save_history_observable (new : String) : List String := ["", new]

/-- Modelled from the spec: a write-to-temp-then-rename `save` (spec §4.1),
under which the record file only ever holds the old or the new content. -/
def atomicSaveObservable (old new : String) : List String := [old, new]

/-- A save is atomic for readers of record `old` being replaced by `new`
when every content observable during the save is one of the two. -/
def atomicFor (observables : List String) (old new : String) : Prop :=
  ∀ s ∈ observables, s = old ∨ s = new

/-- An invocation environment with a fresh campaign state and a send
collaborator that succeeds. -/
def schedFreshEnv : Env :=
  { history := freshHistory, today := 200,
    send_data := [⟨some "s@example.com", some "pw", none⟩],
    messages_data := [⟨none, none⟩],
    receive_data := [.addr "r@example.com"],
    swaks_exists := true, sample_rands := [0],
    credPick := fun _ => 0, msgPick := fun _ => 0, sendOk := fun _ => true }

end MercuryRising

namespace MercuryRising

/-- C1: with `start_date = D` and `today = D + k` (`k ≥ 0`), the quota
computation returns `day_number = k + 1` and
`quota = max 0 (day_number - daily_sends.get today 0)`; on a state with
absent `start_date` it sets `start_date := today` and returns
`day_number = 1` (with the same quota formula). -/
theorem get_current_day_info_spec (h : History) (today D k : Int) :
    (h.start_date = some D → today = D + k → 0 ≤ k →
      (get_current_day_info h today).1 = k + 1 ∧
      (get_current_day_info h today).2.1 = max 0 ((k + 1) - dictGet h.daily_sends today)) ∧
    (h.start_date = none →
      (get_current_day_info h today).1 = 1 ∧
      (get_current_day_info h today).2.2.start_date = some today ∧
      (get_current_day_info h today).2.1 = max 0 (1 - dictGet h.daily_sends today)) := by
  constructor
  · intro hs ht _
    subst ht
    simp [get_current_day_info, hs]
  · intro hs
    simp [get_current_day_info, hs]

/-- Witness for `get_current_day_info_spec` at a concrete state and date. -/
theorem get_current_day_info_spec_witness :
    (get_current_day_info ⟨some 100, [(102, 1)]⟩ 102).1 = 2 + 1 ∧
    (get_current_day_info ⟨some 100, [(102, 1)]⟩ 102).2.1 =
      max 0 ((2 + 1) - dictGet [(102, 1)] 102) :=
  (get_current_day_info_spec ⟨some 100, [(102, 1)]⟩ 102 100 2).1 rfl (by decide) (by decide)

/-- C8: `get_current_day_info` is idempotent: running it a second time on
the state it returned (without persisting in between) yields the same
`(day_number, emails_to_send)` pair, including on a fresh state where the
first call sets `start_date := today`. -/
theorem get_current_day_info_idempotent (h : History) (today : Int) :
    ((get_current_day_info (get_current_day_info h today).2.2 today).1 =
      (get_current_day_info h today).1) ∧
    ((get_current_day_info (get_current_day_info h today).2.2 today).2.1 =
      (get_current_day_info h today).2.1) := by
  cases hs : h.start_date with
  | none => simp [get_current_day_info, hs]
  | some start => simp [get_current_day_info, hs]

/-- C4: for states with `start_date` set, `check_and_cleanup_crontab`
removes the crontab entry exactly when `days_elapsed = (today - start) + 1`
exceeds 5; with `start = today - 5` (day 6) it removes, with
`start = today - 4` (day 5) it does not. -/
theorem check_and_cleanup_crontab_spec (h : History) (today start : Int)
    (hs : h.start_date = some start) :
    (check_and_cleanup_crontab h today = true ↔ (today - start) + 1 > 5) ∧
    (start = today - 5 → check_and_cleanup_crontab h today = true) ∧
    (start = today - 4 → check_and_cleanup_crontab h today = false) := by
  refine ⟨?_, ?_, ?_⟩
  · simp [check_and_cleanup_crontab, hs]
  · intro h5
    subst h5
    simp [check_and_cleanup_crontab, hs]
  · intro h4
    subst h4
    simp [check_and_cleanup_crontab, hs]

/-- Witness for `check_and_cleanup_crontab_spec` at a concrete state. -/
theorem check_and_cleanup_crontab_spec_witness :
    (check_and_cleanup_crontab ⟨some 95, []⟩ 100 = true ↔ (100 - 95 : Int) + 1 > 5) ∧
    ((95 : Int) = 100 - 5 → check_and_cleanup_crontab ⟨some 95, []⟩ 100 = true) ∧
    ((95 : Int) = 100 - 4 → check_and_cleanup_crontab ⟨some 95, []⟩ 100 = false) :=
  check_and_cleanup_crontab_spec ⟨some 95, []⟩ 100 95 rfl

theorem random_sample_subset {α : Type} :
    ∀ (rs : List Nat) (pool : List α) (k : Nat), random_sample rs pool k ⊆ pool := by
  intro rs pool k
  induction k generalizing rs pool with
  | zero => simp [random_sample]
  | succ k ih =>
    intro x hx
    rw [random_sample] at hx
    split at hx
    · simp at hx
    · rcases List.mem_cons.mp hx with h | h
      · subst h; exact List.get_mem ..
      · exact (List.eraseIdx_sublist ..).subset (ih _ _ h)

theorem getElem_not_mem_eraseIdx {α : Type} {l : List α} (hl : l.Nodup) {i : Nat}
    (h : i < l.length) : l[i] ∉ l.eraseIdx i := by
  intro hmem
  rw [List.mem_eraseIdx_iff_getElem] at hmem
  obtain ⟨j, hj, hji, hval⟩ := hmem
  exact hji (hl.getElem_inj_iff.mp hval)

theorem random_sample_nodup {α : Type} :
    ∀ (rs : List Nat) (pool : List α) (k : Nat), pool.Nodup →
      (random_sample rs pool k).Nodup := by
  intro rs pool k
  induction k generalizing rs pool with
  | zero => simp [random_sample]
  | succ k ih =>
    intro hnd
    rw [random_sample]
    split
    · simp
    · refine List.nodup_cons.mpr ⟨?_, ih _ _ (hnd.sublist (List.eraseIdx_sublist ..))⟩
      intro hmem
      exact getElem_not_mem_eraseIdx hnd (Nat.mod_lt _ (Nat.pos_of_ne_zero (by assumption)))
        ((random_sample_subset ..) hmem)

theorem random_sample_length_le {α : Type} :
    ∀ (rs : List Nat) (pool : List α) (k : Nat),
      (random_sample rs pool k).length ≤ pool.length := by
  intro rs pool k
  induction k generalizing rs pool with
  | zero => simp [random_sample]
  | succ k ih =>
    rw [random_sample]
    split
    · simp
    · rename_i hp
      have hlt : (rs.headD 0) % pool.length < pool.length :=
        Nat.mod_lt _ (Nat.pos_of_ne_zero hp)
      have := ih rs.tail (pool.eraseIdx ((rs.headD 0) % pool.length))
      simp only [List.length_cons]
      have herase : (pool.eraseIdx ((rs.headD 0) % pool.length)).length + 1 = pool.length :=
        List.length_eraseIdx_add_one hlt
      omega

/-- C5: recipient selection is without replacement (no recipient selected
twice when the pool has no duplicates), never selects more items than the
pool holds, and when the requested quota exceeds the pool size the count is
clamped to the pool size with the warning flag raised. -/
theorem recipient_selection_spec (rands : List Nat) (receive : List Recipient) (q : Int)
    (hnd : receive.Nodup) :
    ((selectRecipients rands receive q).2.2).Nodup ∧
    ((selectRecipients rands receive q).2.2).length ≤ receive.length ∧
    (q > (receive.length : Int) →
      (selectRecipients rands receive q).1 = (receive.length : Int) ∧
      (selectRecipients rands receive q).2.1 = true) := by
  refine ⟨random_sample_nodup _ _ _ hnd, random_sample_length_le _ _ _, ?_⟩
  intro hq
  simp [selectRecipients, hq]

/-- Witness for `recipient_selection_spec` on a two-element pool with
quota 5. -/
theorem recipient_selection_spec_witness :
    ((selectRecipients [0, 0] [.addr "a", .addr "b"] 5).2.2).Nodup ∧
    ((selectRecipients [0, 0] [.addr "a", .addr "b"] 5).2.2).length ≤
      ([Recipient.addr "a", .addr "b"] : List Recipient).length ∧
    ((5 : Int) > (([Recipient.addr "a", .addr "b"] : List Recipient).length : Int) →
      (selectRecipients [0, 0] [.addr "a", .addr "b"] 5).1 =
        (([Recipient.addr "a", .addr "b"] : List Recipient).length : Int) ∧
      (selectRecipients [0, 0] [.addr "a", .addr "b"] 5).2.1 = true) :=
  recipient_selection_spec [0, 0] [.addr "a", .addr "b"] 5 (by decide)

/-- C6 counterexample: it is not the case that every dispatched item carries
a non-empty subject and body.  A message object that supplies an explicitly
empty `subject`/`body` (keys present, empty values) is used as-is — the
defaults are substituted only when the keys are absent — so the item built
from credentials `{email: s@example.com, password: pw}` and message
`{subject: "", body: ""}` is dispatched with empty subject and body. -/
theorem dispatch_nonempty_subject_counterexample :
    ¬ (∀ (creds : Creds) (msg : Message) (r : Recipient) (ok okFlag : Bool)
        (se re subj body : String),
        processRecipient creds msg r ok = .attempted okFlag se re subj body →
        subj ≠ "" ∧ body ≠ "") := by
  intro hclaim
  have h := hclaim ⟨some "s@example.com", some "pw", none⟩ ⟨some "", some ""⟩
      (.addr "r@example.com") true true "s@example.com" "r@example.com" "" "" (by rfl)
  exact h.1 rfl

/-- C6 (amended): a selected credential whose email or password is missing
or empty is skipped — the item is not counted successful and the loop
processes every remaining item (never fatal).  The subject/body defaults
(which are non-empty) are substituted exactly when the message omits those
keys; a supplied value, even the empty string, is used as-is. -/
theorem dispatch_validation_spec (creds : Creds) (msg : Message) (r : Recipient)
    (ok : Bool) (hr : r ≠ .invalid)
    (hbad : creds.email.getD "" = "" ∨ creds.password.getD "" = "") :
    processRecipient creds msg r ok = .invalidCreds ∧
    (∀ outs : List ItemOutcome, countSuccess (.invalidCreds :: outs) = countSuccess outs) ∧
    (∀ (sd : List Creds) (md : List Message) (cp mp : Nat → Nat) (so : Nat → Bool)
        (rcpts : List Recipient) (i : Nat),
        (dispatchLoop sd md cp mp so rcpts i).length = rcpts.length) ∧
    (msg.subject = none → msg.subject.getD defaultSubject = defaultSubject) ∧
    (msg.body = none → msg.body.getD defaultBody = defaultBody) ∧
    defaultSubject ≠ "" ∧ defaultBody ≠ "" := by
  refine ⟨?_, ?_, ?_, ?_, ?_, ?_, ?_⟩
  · cases r with
    | addr s => exact if_pos hbad
    | objWithEmail s => exact if_pos hbad
    | invalid => exact absurd rfl hr
  · intro outs
    simp [countSuccess, isSuccess]
  · intro sd md cp mp so rcpts
    induction rcpts with
    | nil => intro i; simp [dispatchLoop]
    | cons r rest ih => intro i; simp [dispatchLoop, ih]
  · intro hnone; rw [hnone]; rfl
  · intro hnone; rw [hnone]; rfl
  · decide
  · decide

/-- Witness for `dispatch_validation_spec`: a credential with an empty email
is skipped. -/
theorem dispatch_validation_spec_witness :
    processRecipient ⟨some "", some "pw", none⟩ ⟨none, none⟩ (.addr "r@example.com") true =
      .invalidCreds ∧
    (∀ outs : List ItemOutcome, countSuccess (.invalidCreds :: outs) = countSuccess outs) ∧
    (∀ (sd : List Creds) (md : List Message) (cp mp : Nat → Nat) (so : Nat → Bool)
        (rcpts : List Recipient) (i : Nat),
        (dispatchLoop sd md cp mp so rcpts i).length = rcpts.length) ∧
    ((⟨none, none⟩ : Message).subject = none →
      (⟨none, none⟩ : Message).subject.getD defaultSubject = defaultSubject) ∧
    ((⟨none, none⟩ : Message).body = none →
      (⟨none, none⟩ : Message).body.getD defaultBody = defaultBody) ∧
    defaultSubject ≠ "" ∧ defaultBody ≠ "" :=
  dispatch_validation_spec ⟨some "", some "pw", none⟩ ⟨none, none⟩ (.addr "r@example.com")
    true (by decide) (Or.inl rfl)

/-- C3 counterexample: a forced-send invocation (`--force-send 5`) does run
`check_and_cleanup_crontab` — it is called before the forced/scheduled
branch — and here (campaign started 10 days ago) it removes the crontab
registration, so a forced run does not leave the trigger registration
unchanged. -/
theorem forced_run_cleanup_counterexample :
    (mainModel ⟨false, false, some 5, false⟩ forcedRunEnv).forcedPath = true ∧
    (mainModel ⟨false, false, some 5, false⟩ forcedRunEnv).ranCleanupCheck = true ∧
    (mainModel ⟨false, false, some 5, false⟩ forcedRunEnv).cleanupRemoved = true :=
  ⟨rfl, rfl, rfl⟩

/-- C3 (amended): `check_and_cleanup_crontab` runs on every dispatch
invocation, forced or scheduled alike; only the `--setup-cron`,
`--remove-cron` and `--status` command paths skip it. -/
theorem cleanup_check_on_dispatch_runs (args : Args) (env : Env) :
    (mainModel args env).ranCleanupCheck =
      (!args.setupCron && !args.removeCron && !args.status) := by
  obtain ⟨s, r, f, st⟩ := args
  unfold mainModel
  cases s <;> cases r <;> cases st
  all_goals simp
  all_goals repeat' split
  all_goals rfl

/-- C2 counterexample: a scheduled run from a fresh state in which the one
attempted send fails.  The quota computation sets `start_date` on the
in-memory state (`finalHistory.start_date = some 100`), but `save_history`
is never called during the run (`saved = none`): with zero successful sends
the initialized `start_date` is not persisted. -/
theorem fresh_start_date_not_persisted_counterexample :
    (mainModel ⟨false, false, none, false⟩ freshFailEnv).finalHistory.start_date = some 100 ∧
    (mainModel ⟨false, false, none, false⟩ freshFailEnv).successful_sends = 0 ∧
    (mainModel ⟨false, false, none, false⟩ freshFailEnv).saved = none :=
  ⟨rfl, rfl, rfl⟩

/-- C2 (amended): on a scheduled run from a fresh state (with valid
datasets), the `start_date` set by the quota computation is persisted
exactly when at least one item is successfully sent that day — persistence
happens only through `update_history`, which runs only when
`successful_sends > 0`; with zero successful sends nothing is saved. -/
theorem start_date_persistence_spec (env : Env)
    (hfresh : env.history = freshHistory)
    (hs : env.send_data.length ≠ 0) (hm : env.messages_data.length ≠ 0)
    (hr : env.receive_data.length ≠ 0) (hw : env.swaks_exists = true) :
    (0 < (mainModel ⟨false, false, none, false⟩ env).successful_sends →
      (mainModel ⟨false, false, none, false⟩ env).saved =
        some (mainModel ⟨false, false, none, false⟩ env).finalHistory ∧
      (mainModel ⟨false, false, none, false⟩ env).finalHistory.start_date = some env.today) ∧
    ((mainModel ⟨false, false, none, false⟩ env).successful_sends = 0 →
      (mainModel ⟨false, false, none, false⟩ env).saved = none) := by
  by_cases hsucc :
      0 < countSuccess (dispatchLoop env.send_data env.messages_data env.credPick env.msgPick
        env.sendOk (selectRecipients env.sample_rands env.receive_data 1).2.2 1)
  all_goals
    simp [mainModel, hfresh, hs, hm, hr, hw, forceSendTruthy, get_current_day_info,
      freshHistory, dictGet, update_history, hsucc]
  all_goals omega

/-- Witness for `start_date_persistence_spec` on a concrete fresh-state
environment. -/
theorem start_date_persistence_spec_witness :
    (0 < (mainModel ⟨false, false, none, false⟩ schedFreshEnv).successful_sends →
      (mainModel ⟨false, false, none, false⟩ schedFreshEnv).saved =
        some (mainModel ⟨false, false, none, false⟩ schedFreshEnv).finalHistory ∧
      (mainModel ⟨false, false, none, false⟩ schedFreshEnv).finalHistory.start_date =
        some schedFreshEnv.today) ∧
    ((mainModel ⟨false, false, none, false⟩ schedFreshEnv).successful_sends = 0 →
      (mainModel ⟨false, false, none, false⟩ schedFreshEnv).saved = none) :=
  start_date_persistence_spec schedFreshEnv rfl (by decide) (by decide) (by decide) rfl

/-- C10: invoking `--force-send 0` does not take the forced path: the
truthiness test `if args.force_send:` treats `0` like an absent flag, so the
run is identical to a plain scheduled invocation — the quota comes from
`get_current_day_info`, which on a fresh state initializes `start_date` to
today. -/
theorem force_send_zero_spec (env : Env)
    (hfresh : env.history.start_date = none)
    (hs : env.send_data.length ≠ 0) (hm : env.messages_data.length ≠ 0)
    (hr : env.receive_data.length ≠ 0) (hw : env.swaks_exists = true) :
    mainModel ⟨false, false, some 0, false⟩ env = mainModel ⟨false, false, none, false⟩ env ∧
    (mainModel ⟨false, false, some 0, false⟩ env).forcedPath = false ∧
    (mainModel ⟨false, false, some 0, false⟩ env).finalHistory.start_date = some env.today := by
  refine ⟨rfl, ?_, ?_⟩
  · simp [mainModel, hs, hm, hr, hw, forceSendTruthy]
    repeat' split
    all_goals rfl
  · simp [mainModel, hs, hm, hr, hw, forceSendTruthy, get_current_day_info, hfresh,
      update_history]
    repeat' split
    all_goals simp [update_history]

/-- Witness for `force_send_zero_spec` on a concrete fresh-state
environment. -/
theorem force_send_zero_spec_witness :
    mainModel ⟨false, false, some 0, false⟩ schedFreshEnv =
      mainModel ⟨false, false, none, false⟩ schedFreshEnv ∧
    (mainModel ⟨false, false, some 0, false⟩ schedFreshEnv).forcedPath = false ∧
    (mainModel ⟨false, false, some 0, false⟩ schedFreshEnv).finalHistory.start_date =
      some schedFreshEnv.today :=
  force_send_zero_spec schedFreshEnv rfl (by decide) (by decide) (by decide) rfl

/-- C7 counterexample: a `history.json` holding the valid JSON document
`[]` is a corrupt record (not of the advertised shape), yet `load_history`
returns it unchanged instead of the zero-value state, and the run's very
next access, the `history["start_date"]` subscription, fails (a fatal
`TypeError` in the script) — so state corruption is not always swallowed. -/
theorem load_history_wrong_shape_counterexample :
    wellFormedRecord (JValue.arr []) = false ∧
    load_history (.content (.arr [])) = .arr [] ∧
    load_history (.content (.arr [])) ≠ defaultHistoryJson ∧
    jGetField (load_history (.content (.arr []))) "start_date" = none := by
  refine ⟨rfl, rfl, fun h => JValue.noConfusion h, rfl⟩

/-- C7 (amended): `load_history` itself never raises; whenever the durable
record is absent, unreadable, or not parseable as JSON, it returns the
zero-value state (`start_date` null, empty `daily_sends`), a well-formed
record on which the run proceeds as a fresh campaign.  A record holding
valid JSON of the wrong shape, however, is returned as-is and makes the
subsequent field accesses fail. -/
theorem load_history_recovers_spec (fs : FileState)
    (h : fs = .absent ∨ fs = .unreadable ∨ fs = .invalidJson) :
    load_history fs = defaultHistoryJson ∧
    wellFormedRecord (load_history fs) = true ∧
    jGetField (load_history fs) "start_date" = some .null ∧
    jGetField (load_history fs) "daily_sends" = some (.obj []) := by
  rcases h with h | h | h <;> subst h <;> exact ⟨rfl, rfl, rfl, rfl⟩

/-- Witness for `load_history_recovers_spec` on a missing record file. -/
theorem load_history_recovers_spec_witness :
    load_history .absent = defaultHistoryJson ∧
    wellFormedRecord (load_history .absent) = true ∧
    jGetField (load_history .absent) "start_date" = some .null ∧
    jGetField (load_history .absent) "daily_sends" = some (.obj []) :=
  load_history_recovers_spec .absent (Or.inl rfl)

/-- C9 counterexample: replacing the record `"A"` by `"B"`,
`save_history`'s in-place truncate-then-write lets a reader observe the
empty file, which is neither the old nor the new record — the overwrite is
not atomic and no temp-then-rename step exists in the code. -/
theorem save_history_not_atomic_counterexample :
    "" ∈ save_history_observable "B" ∧
    ¬ atomicFor (save_history_observable "B") "A" "B" := by
  refine ⟨List.mem_cons_self .., ?_⟩
  intro h
  rcases h "" (List.mem_cons_self ..) with h1 | h1
  · exact absurd h1 (by decide)
  · exact absurd h1 (by decide)

/-- C9 (amended): `save_history` persists the full state by truncating the
record file in place and then writing the new serialization, so whenever
the old and new records are both non-empty a reader can observe the
truncated empty file — an intermediate state that the spec's
write-to-temp-then-rename save never exposes (that mechanism is atomic in
this model). -/
theorem save_history_overwrite_not_atomic (old new : String)
    (hold : old ≠ "") (hnew : new ≠ "") :
    "" ∈ save_history_observable new ∧
    ¬ atomicFor (save_history_observable new) old new ∧
    atomicFor (atomicSaveObservable old new) old new := by
  refine ⟨List.mem_cons_self .., ?_, ?_⟩
  · intro h
    rcases h "" (List.mem_cons_self ..) with h1 | h1
    · exact hold h1.symm
    · exact hnew h1.symm
  · intro s hs
    simpa [atomicSaveObservable] using hs

/-- Witness for `save_history_overwrite_not_atomic` at concrete records. -/
theorem save_history_overwrite_not_atomic_witness :
    "" ∈ save_history_observable "B" ∧
    ¬ atomicFor (save_history_observable "B") "A" "B" ∧
    atomicFor (atomicSaveObservable "A" "B") "A" "B" :=
  save_history_overwrite_not_atomic "A" "B" (by decide) (by decide)

end MercuryRising
